import Mathlib

/-!
Verification of the WFTNP client library (`custom_components/wahoo_wftnp`):
the Indoor Bike Data decoder, the FTMS control-point round trip, the WFTNP
transport state (sequence counter, pending table, mailbox) and the session
coordinator (telemetry throttling, sleep detection, manual disconnect).

Bytes are modelled as natural numbers below 256 carried in lists; Python
floats are modelled as exact rationals (every concrete input used in a
theorem below is exactly representable as a binary double, so the modelled
arithmetic agrees with the source's float arithmetic at those inputs).
-/

namespace WahooWftnp

/-- Read a little-endian unsigned 16-bit value from byte list `v` at offset
`i`, as `struct.unpack_from("<H", value, i)` does; `none` when either byte
is out of range. -/
def readU16LE (v : List Nat) (i : Nat) : Option Nat := do
  let a ← v[i]?
  let b ← v[i + 1]?
  some (a + 256 * b)

/-- Interpretation of a 16-bit little-endian pattern as a signed value, as
`struct.unpack_from("<h", value, i)` does on the two raw bytes. -/
def toI16 (n : Nat) : ℤ := if n < 32768 then (n : ℤ) else (n : ℤ) - 65536

/-- Read a little-endian signed 16-bit value from `v` at offset `i`. -/
def readI16LE (v : List Nat) (i : Nat) : Option ℤ := do
  let n ← readU16LE v i
  some (toI16 n)

/-- Decoder accumulator: the metric map built so far (insertion order, as a
Python dict preserves it) and the byte cursor `i`. -/
abbrev IbdAcc := List (String × ℚ) × Nat

/-- Instantaneous speed field of `parse_indoor_bike_data`: decoded
unconditionally whenever two bytes remain, scale 0.01 km/h. -/
def ibd_speed (v : List Nat) (acc : IbdAcc) : Option IbdAcc :=
  if acc.2 + 2 ≤ v.length then do
    let s ← readU16LE v acc.2
    some (acc.1 ++ [("speed_kmh", (s : ℚ) / 100)], acc.2 + 2)
  else some acc

/-- Average speed field: flag bit 1, scale 0.01 km/h. -/
def ibd_avg_speed (v : List Nat) (flags : Nat) (acc : IbdAcc) : Option IbdAcc :=
  if flags &&& (1 <<< 1) ≠ 0 ∧ acc.2 + 2 ≤ v.length then do
    let s ← readU16LE v acc.2
    some (acc.1 ++ [("avg_speed_kmh", (s : ℚ) / 100)], acc.2 + 2)
  else some acc

/-- Instantaneous cadence field: flag bit 2, scale 0.5 rpm. -/
def ibd_cadence (v : List Nat) (flags : Nat) (acc : IbdAcc) : Option IbdAcc :=
  if flags &&& (1 <<< 2) ≠ 0 ∧ acc.2 + 2 ≤ v.length then do
    let s ← readU16LE v acc.2
    some (acc.1 ++ [("cadence_rpm", (s : ℚ) / 2)], acc.2 + 2)
  else some acc

/-- Average cadence field: flag bit 3, scale 0.5 rpm. -/
def ibd_avg_cadence (v : List Nat) (flags : Nat) (acc : IbdAcc) : Option IbdAcc :=
  if flags &&& (1 <<< 3) ≠ 0 ∧ acc.2 + 2 ≤ v.length then do
    let s ← readU16LE v acc.2
    some (acc.1 ++ [("avg_cadence_rpm", (s : ℚ) / 2)], acc.2 + 2)
  else some acc

/-- Total distance field: flag bit 4, a 24-bit little-endian unsigned value
assembled by explicit shifts in the source. -/
def ibd_distance (v : List Nat) (flags : Nat) (acc : IbdAcc) : Option IbdAcc :=
  if flags &&& (1 <<< 4) ≠ 0 ∧ acc.2 + 3 ≤ v.length then do
    let a ← v[acc.2]?
    let b ← v[acc.2 + 1]?
    let c ← v[acc.2 + 2]?
    some (acc.1 ++ [("distance_m", ((a ||| (b <<< 8) ||| (c <<< 16) : Nat) : ℚ))], acc.2 + 3)
  else some acc

/-- Resistance level field: flag bit 5, signed 16-bit. -/
def ibd_resistance (v : List Nat) (flags : Nat) (acc : IbdAcc) : Option IbdAcc :=
  if flags &&& (1 <<< 5) ≠ 0 ∧ acc.2 + 2 ≤ v.length then do
    let s ← readI16LE v acc.2
    some (acc.1 ++ [("resistance_level", (s : ℚ))], acc.2 + 2)
  else some acc

/-- Instantaneous power field: flag bit 6, signed 16-bit watts. -/
def ibd_power (v : List Nat) (flags : Nat) (acc : IbdAcc) : Option IbdAcc :=
  if flags &&& (1 <<< 6) ≠ 0 ∧ acc.2 + 2 ≤ v.length then do
    let s ← readI16LE v acc.2
    some (acc.1 ++ [("power_w", (s : ℚ))], acc.2 + 2)
  else some acc

/-- Embedding of `parse_indoor_bike_data` (wftnp.py lines 437-497): a u16 LE
flags word followed by optional fields, each consumed only when its flag bit
is set (where gated) and enough bytes remain; inputs shorter than two bytes
yield the empty map. Every byte access is through `Option`, so `none` would
witness a read past the end of the input. -/
def parse_indoor_bike_data (v : List Nat) : Option (List (String × ℚ)) :=
  if v.length < 2 then some []
  else do
    let flags ← readU16LE v 0
    let acc1 ← ibd_speed v ([], 2)
    let acc2 ← ibd_avg_speed v flags acc1
    let acc3 ← ibd_cadence v flags acc2
    let acc4 ← ibd_avg_cadence v flags acc3
    let acc5 ← ibd_distance v flags acc4
    let acc6 ← ibd_resistance v flags acc5
    let acc7 ← ibd_power v flags acc6
    some acc7.1

/-- The metric names `parse_indoor_bike_data` can emit. -/
def ibdKeys : List String :=
  ["speed_kmh", "avg_speed_kmh", "cadence_rpm", "avg_cadence_rpm",
   "distance_m", "resistance_level", "power_w"]

/-- Every key of the metric map `m` is a recognized metric name. -/
def keysOK (m : List (String × ℚ)) : Prop := ∀ kv ∈ m, kv.1 ∈ ibdKeys

theorem readU16LE_isSome (v : List Nat) (i : Nat) (h : i + 2 ≤ v.length) :
    ∃ n, readU16LE v i = some n := by
  have ha : i < v.length := by omega
  have hb : i + 1 < v.length := by omega
  exact ⟨v[i] + 256 * v[i + 1], by
    simp [readU16LE, List.getElem?_eq_getElem, ha, hb]⟩

theorem readI16LE_isSome (v : List Nat) (i : Nat) (h : i + 2 ≤ v.length) :
    ∃ n, readI16LE v i = some n := by
  obtain ⟨m, hm⟩ := readU16LE_isSome v i h
  exact ⟨toI16 m, by simp [readI16LE, hm]⟩

theorem keysOK_append (m : List (String × ℚ)) (k : String) (q : ℚ)
    (hm : keysOK m) (hk : k ∈ ibdKeys) : keysOK (m ++ [(k, q)]) := by
  intro kv hkv
  rcases List.mem_append.mp hkv with h | h
  · exact hm kv h
  · simp only [List.mem_singleton] at h
    subst h
    exact hk

theorem ibd_speed_ok (v : List Nat) (acc : IbdAcc) (h : keysOK acc.1) :
    ∃ acc', ibd_speed v acc = some acc' ∧ keysOK acc'.1 := by
  unfold ibd_speed
  split
  · next hc =>
    obtain ⟨n, hn⟩ := readU16LE_isSome v acc.2 hc
    refine ⟨(acc.1 ++ [("speed_kmh", (n : ℚ) / 100)], acc.2 + 2), by simp [hn], ?_⟩
    exact keysOK_append _ _ _ h (by simp [ibdKeys])
  · exact ⟨acc, rfl, h⟩

theorem ibd_avg_speed_ok (v : List Nat) (flags : Nat) (acc : IbdAcc) (h : keysOK acc.1) :
    ∃ acc', ibd_avg_speed v flags acc = some acc' ∧ keysOK acc'.1 := by
  unfold ibd_avg_speed
  split
  · next hc =>
    obtain ⟨n, hn⟩ := readU16LE_isSome v acc.2 hc.2
    refine ⟨(acc.1 ++ [("avg_speed_kmh", (n : ℚ) / 100)], acc.2 + 2), by simp [hn], ?_⟩
    exact keysOK_append _ _ _ h (by simp [ibdKeys])
  · exact ⟨acc, rfl, h⟩

theorem ibd_cadence_ok (v : List Nat) (flags : Nat) (acc : IbdAcc) (h : keysOK acc.1) :
    ∃ acc', ibd_cadence v flags acc = some acc' ∧ keysOK acc'.1 := by
  unfold ibd_cadence
  split
  · next hc =>
    obtain ⟨n, hn⟩ := readU16LE_isSome v acc.2 hc.2
    refine ⟨(acc.1 ++ [("cadence_rpm", (n : ℚ) / 2)], acc.2 + 2), by simp [hn], ?_⟩
    exact keysOK_append _ _ _ h (by simp [ibdKeys])
  · exact ⟨acc, rfl, h⟩

theorem ibd_avg_cadence_ok (v : List Nat) (flags : Nat) (acc : IbdAcc) (h : keysOK acc.1) :
    ∃ acc', ibd_avg_cadence v flags acc = some acc' ∧ keysOK acc'.1 := by
  unfold ibd_avg_cadence
  split
  · next hc =>
    obtain ⟨n, hn⟩ := readU16LE_isSome v acc.2 hc.2
    refine ⟨(acc.1 ++ [("avg_cadence_rpm", (n : ℚ) / 2)], acc.2 + 2), by simp [hn], ?_⟩
    exact keysOK_append _ _ _ h (by simp [ibdKeys])
  · exact ⟨acc, rfl, h⟩

theorem ibd_distance_ok (v : List Nat) (flags : Nat) (acc : IbdAcc) (h : keysOK acc.1) :
    ∃ acc', ibd_distance v flags acc = some acc' ∧ keysOK acc'.1 := by
  unfold ibd_distance
  split
  · next hc =>
    have ha : acc.2 < v.length := by omega
    have hb : acc.2 + 1 < v.length := by omega
    have hcc : acc.2 + 2 < v.length := by omega
    refine ⟨(acc.1 ++ [("distance_m",
      ((v[acc.2] ||| (v[acc.2 + 1] <<< 8) ||| (v[acc.2 + 2] <<< 16) : Nat) : ℚ))], acc.2 + 3),
      by simp [List.getElem?_eq_getElem, ha, hb, hcc], ?_⟩
    exact keysOK_append _ _ _ h (by simp [ibdKeys])
  · exact ⟨acc, rfl, h⟩

theorem ibd_resistance_ok (v : List Nat) (flags : Nat) (acc : IbdAcc) (h : keysOK acc.1) :
    ∃ acc', ibd_resistance v flags acc = some acc' ∧ keysOK acc'.1 := by
  unfold ibd_resistance
  split
  · next hc =>
    obtain ⟨n, hn⟩ := readI16LE_isSome v acc.2 hc.2
    refine ⟨(acc.1 ++ [("resistance_level", (n : ℚ))], acc.2 + 2), by simp [hn], ?_⟩
    exact keysOK_append _ _ _ h (by simp [ibdKeys])
  · exact ⟨acc, rfl, h⟩

theorem ibd_power_ok (v : List Nat) (flags : Nat) (acc : IbdAcc) (h : keysOK acc.1) :
    ∃ acc', ibd_power v flags acc = some acc' ∧ keysOK acc'.1 := by
  unfold ibd_power
  split
  · next hc =>
    obtain ⟨n, hn⟩ := readI16LE_isSome v acc.2 hc.2
    refine ⟨(acc.1 ++ [("power_w", (n : ℚ))], acc.2 + 2), by simp [hn], ?_⟩
    exact keysOK_append _ _ _ h (by simp [ibdKeys])
  · exact ⟨acc, rfl, h⟩

/-- C9: `parse_indoor_bike_data` on the byte string
`44 00 d2 04 a0 00 fa 00` (flags 0x0044 = cadence + power) returns exactly
the map with `speed_kmh = 12.34`, `cadence_rpm = 80.0`, `power_w = 250.0`:
instantaneous speed is decoded unconditionally and each flagged field in the
specified order while enough bytes remain. -/
theorem parse_indoor_bike_data_s1 :
    parse_indoor_bike_data [0x44, 0x00, 0xd2, 0x04, 0xa0, 0x00, 0xfa, 0x00] =
      some [("speed_kmh", 1234 / 100), ("cadence_rpm", 80), ("power_w", 250)] := by
  have hb1 : (68 : Nat) &&& 2 = 0 := by decide
  have hb2 : (68 : Nat) &&& 4 = 4 := by decide
  have hb3 : (68 : Nat) &&& 8 = 0 := by decide
  have hb4 : (68 : Nat) &&& 16 = 0 := by decide
  have hb5 : (68 : Nat) &&& 32 = 0 := by decide
  have hb6 : (68 : Nat) &&& 64 = 64 := by decide
  simp [parse_indoor_bike_data, ibd_speed, ibd_avg_speed, ibd_cadence, ibd_avg_cadence,
    ibd_distance, ibd_resistance, ibd_power, readU16LE, readI16LE, toI16,
    hb1, hb2, hb3, hb4, hb5, hb6]
  norm_num

/-- C10: on every byte string input, `parse_indoor_bike_data` returns a map
(never `none`, hence never a failed out-of-range read), and every key of the
returned map is one of the seven recognized metric names. -/
theorem parse_indoor_bike_data_total (v : List Nat) :
    ∃ m, parse_indoor_bike_data v = some m ∧ keysOK m := by
  unfold parse_indoor_bike_data
  by_cases h : v.length < 2
  · exact ⟨[], by simp [h], by intro kv hkv; simp at hkv⟩
  · obtain ⟨f, hf⟩ := readU16LE_isSome v 0 (by omega)
    obtain ⟨a1, h1, k1⟩ := ibd_speed_ok v ([], 2) (by intro kv hkv; simp at hkv)
    obtain ⟨a2, h2, k2⟩ := ibd_avg_speed_ok v f a1 k1
    obtain ⟨a3, h3, k3⟩ := ibd_cadence_ok v f a2 k2
    obtain ⟨a4, h4, k4⟩ := ibd_avg_cadence_ok v f a3 k3
    obtain ⟨a5, h5, k5⟩ := ibd_distance_ok v f a4 k4
    obtain ⟨a6, h6, k6⟩ := ibd_resistance_ok v f a5 k5
    obtain ⟨a7, h7, k7⟩ := ibd_power_ok v f a6 k6
    exact ⟨a7.1, by simp [h, hf, h1, h2, h3, h4, h5, h6, h7], k7⟩

/-- Completion state of a one-shot response future held in the pending
table. `transportClosed` is the completion the specification prescribes on
shutdown; the source never produces it. -/
inductive FutureState
  | waiting
  | resolved (resp : Nat) (data : List Nat)
  | transportClosed
deriving DecidableEq

/-- Mutable state of a `WFTNPClient` (wftnp.py lines 129-142): stream
halves, sequence counter, pending table keyed by (message type, sequence),
receive-loop task flag, control-point mailbox. -/
structure ClientState where
  readerOpen : Bool
  writerOpen : Bool
  seq : Nat
  pending : List ((Nat × Nat) × FutureState)
  rxTask : Bool
  cpQueue : List (List Nat)
deriving DecidableEq

namespace WFTNPClient

/-- `WFTNPClient.__init__`: counter 0, empty pending table, empty mailbox,
no streams, no receive loop. -/
def initClient : ClientState :=
  { readerOpen := false, writerOpen := false, seq := 0, pending := [],
    rxTask := false, cpQueue := [] }

/-- Embedding of `WFTNPClient.connect` (wftnp.py lines 175-186): opens the
stream pair and spawns the receive loop. No other field is assigned in the
source: the sequence counter, the pending table and the mailbox are left
exactly as the previous connection left them. -/
def connect (st : ClientState) : ClientState :=
  { st with readerOpen := true, writerOpen := true, rxTask := true }

/-- Embedding of `WFTNPClient.close` (wftnp.py lines 188-202): cancels the
receive loop, closes the writer and drops both stream references. Neither
`self._pending` nor `self._cp_queue` is mentioned in the method body. -/
def close (st : ClientState) : ClientState :=
  { st with rxTask := false, readerOpen := false, writerOpen := false }

/-- Embedding of `WFTNPClient._next_seq` (wftnp.py lines 209-211): issued
value and updated state, `(seq + 1) & 0xFF`. -/
def next_seq (st : ClientState) : Nat × ClientState :=
  ((st.seq + 1) % 256, { st with seq := (st.seq + 1) % 256 })

/-- Python dict assignment on an association list: replaces the value in
place when the key is present, appends otherwise. -/
def dictInsert (l : List ((Nat × Nat) × FutureState)) (k : Nat × Nat) (f : FutureState) :
    List ((Nat × Nat) × FutureState) :=
  if l.any (fun e => e.1 == k) then l.map (fun e => if e.1 = k then (k, f) else e)
  else l ++ [(k, f)]

/-- The issuing half of `WFTNPClient._request` (wftnp.py lines 244-258):
take the next sequence and store a fresh waiting future under key
`(mtype, seq)` — plain dict assignment, overwriting any entry already
live under that key. -/
def request_start (mtype : Nat) (st : ClientState) : ClientState :=
  let p := next_seq st
  { p.2 with pending := dictInsert p.2.pending (mtype, p.1) FutureState.waiting }

/-- True when the key the next request of type `mtype` would use is already
live in the pending table, i.e. when issuing it would overwrite a live
entry. -/
def request_collides (mtype : Nat) (st : ClientState) : Bool :=
  st.pending.any (fun e => e.1 == (mtype, (st.seq + 1) % 256))

end WFTNPClient

/-- A client state as a previous connection can leave it: non-zero counter
and a still-live pending entry. -/
def staleClient : ClientState :=
  { readerOpen := false, writerOpen := false, seq := 5,
    pending := [((1, 3), FutureState.waiting)], rxTask := false, cpQueue := [] }

/-- An open client with a live pending future and a non-empty control-point
mailbox. -/
def openClientWithPending : ClientState :=
  { readerOpen := true, writerOpen := true, seq := 7,
    pending := [((4, 8), FutureState.waiting)], rxTask := true,
    cpQueue := [[1, 2, 3]] }

/-- C2 counterexample: calling `connect` on a client whose previous
connection left counter 5 and a live pending entry neither resets the
counter (the first sequence issued afterwards is 6, not 1) nor empties the
pending table. -/
theorem connect_does_not_reset :
    (WFTNPClient.connect staleClient).pending ≠ [] ∧
    (WFTNPClient.next_seq (WFTNPClient.connect staleClient)).1 = 6 := by
  decide

/-- C2 amended: `connect` leaves the sequence counter, the pending table and
the mailbox exactly as they were; the counter and table are initialized to
0 / empty only at client construction, so on a freshly constructed client
the first sequence issued after `connect` is 1 and the pending table is
empty when `connect` returns. -/
theorem connect_preserves_seq_and_pending (st : ClientState) :
    (WFTNPClient.connect st).seq = st.seq ∧
    (WFTNPClient.connect st).pending = st.pending ∧
    (WFTNPClient.connect st).cpQueue = st.cpQueue ∧
    (WFTNPClient.next_seq (WFTNPClient.connect WFTNPClient.initClient)).1 = 1 ∧
    (WFTNPClient.connect WFTNPClient.initClient).pending = [] :=
  ⟨rfl, rfl, rfl, rfl, rfl⟩

/-- C3 counterexample: after `close` on a client holding one pending future
and one mailbox entry, the future is still `waiting` — not completed with a
transport-closed error — and the mailbox still holds its entry. -/
theorem close_does_not_drain :
    (WFTNPClient.close openClientWithPending).pending =
      [((4, 8), FutureState.waiting)] ∧
    (WFTNPClient.close openClientWithPending).cpQueue = [[1, 2, 3]] := by
  decide

/-- C3 amended: `close` cancels the receive loop and drops both stream
halves, but leaves the pending table (with its futures still waiting) and
the control-point mailbox untouched. -/
theorem close_leaves_pending_and_mailbox (st : ClientState) :
    (WFTNPClient.close st).pending = st.pending ∧
    (WFTNPClient.close st).cpQueue = st.cpQueue ∧
    (WFTNPClient.close st).rxTask = false ∧
    (WFTNPClient.close st).readerOpen = false ∧
    (WFTNPClient.close st).writerOpen = false :=
  ⟨rfl, rfl, rfl, rfl, rfl⟩

theorem request_start_seq (mtype : Nat) (st : ClientState) :
    (WFTNPClient.request_start mtype st).seq = (st.seq + 1) % 256 := rfl

theorem request_start_iterate_seq (mtype n : Nat) (st : ClientState)
    (hb : st.seq < 256) :
    ((WFTNPClient.request_start mtype)^[n] st).seq = (st.seq + n) % 256 := by
  induction n with
  | zero => simp [Nat.mod_eq_of_lt hb]
  | succ k ih =>
    rw [Function.iterate_succ_apply', request_start_seq, ih]
    omega

set_option maxRecDepth 4096 in
/-- C4 counterexample: starting from a fresh client, issue 257 requests of
message type 4 to which no response ever arrives. Request 1 stores the live
key (4, 1); after 256 requests the counter has wrapped and the 257th
request is about to use key (4, 1) again while that entry is still live —
the assignment overwrites it. -/
theorem seq_reused_at_wrap :
    WFTNPClient.request_collides 4
      ((WFTNPClient.request_start 4)^[256] WFTNPClient.initClient) = true := by
  decide

/-- C4 amended: issued sequence numbers repeat only with period 256: within
any window of fewer than 256 consecutively issued requests (responses never
arriving), the counter values — and hence the pending keys for a fixed
message type — are pairwise distinct, so no live entry is overwritten
before the counter wraps; at the 256th subsequent request the same key
recurs and the dict assignment overwrites the still-live entry. -/
theorem seq_not_reused_before_wrap (mtype : Nat) (st : ClientState) (i j : Nat)
    (hb : st.seq < 256) (hij : i < j) (hwin : j - i < 256) :
    ((WFTNPClient.request_start mtype)^[i] st).seq ≠
      ((WFTNPClient.request_start mtype)^[j] st).seq := by
  rw [request_start_iterate_seq mtype i st hb, request_start_iterate_seq mtype j st hb]
  omega

/-- Witness for the amended C4 at a concrete window: the sequences issued by
the first and second request of a fresh client differ. -/
theorem seq_not_reused_before_wrap_witness :
    WFTNPClient.initClient.seq < 256 ∧ (0 : Nat) < 1 ∧ 1 - 0 < 256 ∧
      ((WFTNPClient.request_start 4)^[0] WFTNPClient.initClient).seq ≠
        ((WFTNPClient.request_start 4)^[1] WFTNPClient.initClient).seq :=
  ⟨by decide, by decide, by decide,
    seq_not_reused_before_wrap 4 WFTNPClient.initClient 0 1 (by decide) (by decide)
      (by decide)⟩

/-- FTMS control-point failure as the caller observes it: the asyncio
timeout of the bounded mailbox wait, or `FTMSControlPointError` carrying the
request opcode and the non-success result code. -/
inductive CPErr
  | timedOut
  | cpError (opcode result : Nat)
deriving DecidableEq

/-- Embedding of `WFTNPClient._await_cp_result` (wftnp.py lines 328-342)
applied to the control-point mailbox contents: scan for the first packet of
at least three bytes whose first two bytes are `0x80, expected`, discarding
everything else; result 0x01 is success, any other result raises
`FTMSControlPointError`; an exhausted mailbox is the timeout. -/
def await_cp_result (expected : Nat) : List (List Nat) → Except CPErr Unit
  | [] => Except.error CPErr.timedOut
  | pkt :: rest =>
    match pkt with
    | a :: b :: r :: _ =>
      if a = 0x80 ∧ b = expected then
        if r ≠ 0x01 then Except.error (CPErr.cpError expected r) else Except.ok ()
      else await_cp_result expected rest
    | _ => await_cp_result expected rest

/-- Embedding of `WFTNPClient.stop_training` (wftnp.py lines 368-374): write
opcode 0x08 to the control point, then await the indication. The pair is
(bytes written, outcome); the outcome of `_await_cp_result` is returned
unchanged — the method body contains no handler for any result code. -/
def stop_training (mailbox : List (List Nat)) : List Nat × Except CPErr Unit :=
  ([0x08], await_cp_result 0x08 mailbox)

/-- C5 counterexample: a control-point indication `80 08 02`
(OP_CODE_NOT_SUPPORTED) makes `stop_training` fail with
`FTMSControlPointError`, exactly like any other non-success code — the
error is propagated to the caller, not downgraded to a warning. -/
theorem stop_training_not_supported_raises :
    (stop_training [[0x80, 0x08, 0x02]]).2 =
      Except.error (CPErr.cpError 0x08 0x02) := by
  rfl

/-- C5 amended: `stop_training` propagates every non-success control-point
result — OP_CODE_NOT_SUPPORTED (0x02) included — as
`FTMSControlPointError`; only result 0x01 completes the operation. -/
theorem stop_training_propagates_all_failures (r : Nat) (hr : r ≠ 0x01) :
    (stop_training [[0x80, 0x08, r]]).2 = Except.error (CPErr.cpError 0x08 r) ∧
    (stop_training [[0x80, 0x08, 0x01]]).2 = Except.ok () := by
  refine ⟨?_, by rfl⟩
  simp [stop_training, await_cp_result, hr]

/-- Witness for the amended C5 at the OP_CODE_NOT_SUPPORTED result code. -/
theorem stop_training_propagates_all_failures_witness :
    (stop_training [[0x80, 0x08, 0x02]]).2 =
        Except.error (CPErr.cpError 0x08 0x02) ∧
      (stop_training [[0x80, 0x08, 0x01]]).2 = Except.ok () :=
  stop_training_propagates_all_failures 0x02 (by decide)

/-- Embedding of `clamp` (wftnp.py lines 108-109) over exact rationals. -/
def clamp (x lo hi : ℚ) : ℚ := if x < lo then lo else if x > hi then hi else x

/-- Python's `round` at a value the float arithmetic represents exactly:
round to the nearest integer, ties to the even neighbor. -/
def pyRound (x : ℚ) : ℤ :=
  if x - ⌊x⌋ < 1/2 then ⌊x⌋
  else if 1/2 < x - ⌊x⌋ then ⌊x⌋ + 1
  else if 2 ∣ ⌊x⌋ then ⌊x⌋ else ⌊x⌋ + 1

/-- Integer saturation, `int(clamp(raw, lo, hi))` in the source. -/
def clampZ (x lo hi : ℤ) : ℤ := if x < lo then lo else if x > hi then hi else x

/-- Wind raw encoding of `WFTNPClient.set_grade` (wftnp.py lines 411-425):
sanity clamp to ±50 m/s, scale by 1000, Python round, saturate to i16. -/
def wind_raw (wind_mps : ℚ) : ℤ :=
  clampZ (pyRound (clamp wind_mps (-50) 50 * 1000)) (-32768) 32767

/-- Grade raw encoding of `set_grade`: clamp to [min_grade, max_grade]
(defaults −10.0 and 15.0), scale by 100, Python round, saturate to i16. -/
def grade_raw (grade_percent mn mx : ℚ) : ℤ :=
  clampZ (pyRound (clamp grade_percent mn mx * 100)) (-32768) 32767

/-- Rolling-resistance raw encoding of `set_grade`: clamp to [0, 0.0255],
scale by 10000, Python round, saturate to u8. -/
def crr_raw (crr : ℚ) : ℤ :=
  clampZ (pyRound (clamp crr 0 (255 / 10000) * 10000)) 0 255

/-- Drag raw encoding of `set_grade`: clamp to [0, 2.55], scale by 100,
Python round, saturate to u8. -/
def cw_raw (cw : ℚ) : ℤ :=
  clampZ (pyRound (clamp cw 0 (255 / 100) * 100)) 0 255

/-- Rounding to nearest with ties away from zero — the rule the
specification prescribes for the `set_grade` raw encodings, stated from the
spec's words for comparison with `pyRound`. -/
def roundHalfAway (x : ℚ) : ℤ := if 0 ≤ x then ⌊x + 1/2⌋ else -⌊-x + 1/2⌋

theorem floor_half : ⌊(1/2 : ℚ)⌋ = 0 := by
  rw [Int.floor_eq_iff]
  norm_num

theorem pyRound_half (n : ℤ) : pyRound ((n : ℚ) + 1/2) = if 2 ∣ n then n else n + 1 := by
  have hf : ⌊(n : ℚ) + 1/2⌋ = n := by
    rw [Int.floor_int_add, floor_half, add_zero]
  have hr : ((n : ℚ) + 1/2) - ↑⌊(n : ℚ) + 1/2⌋ = 1/2 := by rw [hf]; ring
  unfold pyRound
  rw [hr, hf]
  norm_num

/-- C8 counterexample: `set_grade` with grade 0.125 % — scaled raw value
12.5, exactly halfway — encodes 12 (Python rounds the tie to the even
neighbor), while rounding the tie away from zero followed by the same i16
saturation gives 13. -/
theorem set_grade_tie_counterexample :
    grade_raw (1/8) (-10) 15 = 12 ∧
    clampZ (roundHalfAway (clamp (1/8) (-10) 15 * 100)) (-32768) 32767 = 13 := by
  have h1 : clamp (1/8 : ℚ) (-10) 15 * 100 = ((12 : ℤ) : ℚ) + 1/2 := by
    unfold clamp
    norm_num
  constructor
  · unfold grade_raw
    rw [h1, pyRound_half]
    norm_num [clampZ]
  · rw [h1]
    unfold roundHalfAway
    rw [if_pos (by norm_num)]
    have h2 : ((12 : ℤ) : ℚ) + 1/2 + 1/2 = ((13 : ℤ) : ℚ) := by norm_num
    rw [h2, Int.floor_intCast]
    norm_num [clampZ]

/-- C8 amended: whenever a scaled raw value of `set_grade` lands exactly
halfway between two integers after input clamping, the encoded integer is
the result of rounding the tie to the even neighbor (Python `round`), then
saturating to the i16 (wind, grade) or u8 (crr, cw) range. -/
theorem set_grade_ties_to_even (g w c k : ℚ) (ng nw nc nk : ℤ)
    (hg : clamp g (-10) 15 * 100 = (ng : ℚ) + 1/2)
    (hw : clamp w (-50) 50 * 1000 = (nw : ℚ) + 1/2)
    (hc : clamp c 0 (255 / 10000) * 10000 = (nc : ℚ) + 1/2)
    (hk : clamp k 0 (255 / 100) * 100 = (nk : ℚ) + 1/2) :
    grade_raw g (-10) 15 = clampZ (if 2 ∣ ng then ng else ng + 1) (-32768) 32767 ∧
    wind_raw w = clampZ (if 2 ∣ nw then nw else nw + 1) (-32768) 32767 ∧
    crr_raw c = clampZ (if 2 ∣ nc then nc else nc + 1) 0 255 ∧
    cw_raw k = clampZ (if 2 ∣ nk then nk else nk + 1) 0 255 := by
  unfold grade_raw wind_raw crr_raw cw_raw
  rw [hg, hw, hc, hk, pyRound_half, pyRound_half, pyRound_half, pyRound_half]
  exact ⟨rfl, rfl, rfl, rfl⟩

/-- Witness for the amended C8: grade 0.125 % (tie at 12.5, even side 12),
wind 0.0005 m/s, crr 0.00005, cw 0.005 (each a tie at 0.5, even side 0). -/
theorem set_grade_ties_to_even_witness :
    grade_raw (1/8) (-10) 15 =
        clampZ (if 2 ∣ (12 : ℤ) then 12 else 13) (-32768) 32767 ∧
      wind_raw (1/2000) = clampZ (if 2 ∣ (0 : ℤ) then 0 else 1) (-32768) 32767 ∧
      crr_raw (1/20000) = clampZ (if 2 ∣ (0 : ℤ) then 0 else 1) 0 255 ∧
      cw_raw (1/200) = clampZ (if 2 ∣ (0 : ℤ) then 0 else 1) 0 255 :=
  set_grade_ties_to_even (1/8) (1/2000) (1/20000) (1/200) 12 0 0 0
    (by unfold clamp; norm_num) (by unfold clamp; norm_num)
    (by unfold clamp; norm_num) (by unfold clamp; norm_num)

/-- A telemetry snapshot dict: the metric entries and the wall-clock
`last_seen` value the coordinator stamps on every merge. -/
structure Snapshot where
  metrics : List (String × ℚ)
  lastSeen : Option ℚ
deriving DecidableEq

/-- Python dict assignment for metric maps: replace in place when the key is
present, append otherwise. -/
def metricInsert (l : List (String × ℚ)) (k : String) (q : ℚ) : List (String × ℚ) :=
  if l.any (fun e => e.1 == k) then l.map (fun e => if e.1 = k then (k, q) else e)
  else l ++ [(k, q)]

/-- `updated.update(data)`: fold dict assignment of every entry of `data`
into `l`. -/
def metricUpdate (l data : List (String × ℚ)) : List (String × ℚ) :=
  data.foldl (fun acc kv => metricInsert acc kv.1 kv.2) l

/-- The empty snapshot, `dict({})` with no last-seen stamp. -/
def emptySnap : Snapshot := { metrics := [], lastSeen := none }

/-- Coordinator telemetry state (coordinator.py lines 64-84): the snapshot
`self.data` (`none` before the first publish), the three configuration
knobs, the three monotonic timestamps, and the sequence of change events
published so far through `async_set_updated_data`. -/
structure CoordState where
  data : Option Snapshot
  sleep_timeout : ℚ
  last_seen_interval : ℚ
  update_throttle : ℚ
  last_activity : ℚ
  last_publish : ℚ
  last_seen_publish : ℚ
  events : List Snapshot
deriving DecidableEq

/-- `self.async_set_updated_data(updated)`: replace the stored snapshot and
notify listeners, recorded here as an appended change event. -/
def set_updated_data (snap : Snapshot) (st : CoordState) : CoordState :=
  { st with data := some snap, events := st.events ++ [snap] }

/-- Embedding of `_has_activity` (coordinator.py lines 40-50): true when any
of speed_kmh, cadence_rpm, power_w is present with a positive value. -/
def has_activity (data : List (String × ℚ)) : Bool :=
  ["speed_kmh", "cadence_rpm", "power_w"].any fun key =>
    match data.lookup key with
    | some v => decide (v > 0)
    | none => false

/-- Embedding of `_is_sleeping` (coordinator.py lines 132-135). -/
def is_sleeping (st : CoordState) (now last_activity : ℚ) : Bool :=
  if st.sleep_timeout ≤ 0 then false
  else decide (now - last_activity ≥ st.sleep_timeout)

/-- Embedding of `_maybe_publish_last_seen` (coordinator.py lines 137-143):
no-op while the last-seen interval has not elapsed; otherwise advance
`last_seen_publish`, stamp a fresh `last_seen` on a copy of the snapshot and
publish it. -/
def maybe_publish_last_seen (now wall : ℚ) (st : CoordState) : CoordState :=
  if now - st.last_seen_publish < st.last_seen_interval then st
  else
    let st1 := { st with last_seen_publish := now }
    let cur := st1.data.getD emptySnap
    set_updated_data { cur with lastSeen := some wall } st1

/-- Embedding of `_publish_active` (coordinator.py lines 145-157): build the
merged snapshot with a fresh `last_seen`; when throttled, return without
storing or publishing it; otherwise advance both publish timestamps and
publish it. -/
def publish_active (data : List (String × ℚ)) (now wall : ℚ) (st : CoordState) : CoordState :=
  let cur := st.data.getD emptySnap
  let updated : Snapshot := { metrics := metricUpdate cur.metrics data, lastSeen := some wall }
  if st.update_throttle ≠ 0 ∧ now - st.last_publish < st.update_throttle then st
  else set_updated_data updated { st with last_publish := now, last_seen_publish := now }

/-- Embedding of `_handle_indoor_bike_data` (coordinator.py lines 119-130):
a no-activity packet during sleep goes to the bare last-seen path; otherwise
activity advances `last_activity_monotonic` and the packet goes through
`_publish_active`. `now` is `time.monotonic()`, `wall` is the
`dt_util.utcnow()` stamp. -/
def handle_indoor_bike_data (data : List (String × ℚ)) (now wall : ℚ)
    (st : CoordState) : CoordState :=
  if !has_activity data && is_sleeping st now st.last_activity then
    maybe_publish_last_seen now wall st
  else
    let st1 := if has_activity data then { st with last_activity := now } else st
    publish_active data now wall st1

/-- The snapshot published before the idle-trio scenario starts. -/
def idleTrioSnap : Snapshot :=
  { metrics := [("speed_kmh", 1), ("cadence_rpm", 85), ("power_w", 220)], lastSeen := none }

/-- The coordinator state of the idle-trio scenario: sleep_timeout 10,
last_seen_interval 1, update_throttle 0, all timestamps 0, a previously
published active snapshot. -/
def idleTrioStart : CoordState :=
  { data := some idleTrioSnap,
    sleep_timeout := 10, last_seen_interval := 1, update_throttle := 0,
    last_activity := 0, last_publish := 0, last_seen_publish := 0, events := [] }

/-- An all-zero Indoor Bike Data packet as decoded. -/
def zeroPacket : List (String × ℚ) :=
  [("speed_kmh", 0), ("cadence_rpm", 0), ("power_w", 0)]

/-- The idle-trio state after all-zero packets at monotonic times 5, 9, 12. -/
def idleTrioEnd : CoordState :=
  handle_indoor_bike_data zeroPacket 12 0
    (handle_indoor_bike_data zeroPacket 9 0
      (handle_indoor_bike_data zeroPacket 5 0 idleTrioStart))

/-- The snapshot every publish of the idle trio produces: all metrics zeroed
in place, fresh last-seen stamp. -/
def idleSnapZ : Snapshot := { metrics := zeroPacket, lastSeen := some 0 }

/-- Idle-trio state after the packet at t = 5 (published: throttle off). -/
def idleTrioSt1 : CoordState :=
  { data := some idleSnapZ, sleep_timeout := 10, last_seen_interval := 1,
    update_throttle := 0, last_activity := 0, last_publish := 5,
    last_seen_publish := 5, events := [idleSnapZ] }

/-- Idle-trio state after the packet at t = 9 (still published: 9 − 0 is
below the sleep timeout). -/
def idleTrioSt2 : CoordState :=
  { idleTrioSt1 with
      last_publish := 9, last_seen_publish := 9, events := [idleSnapZ, idleSnapZ] }

/-- Idle-trio state after the packet at t = 12 (sleep path: only a bare
last-seen publish). -/
def idleTrioSt3 : CoordState :=
  { idleTrioSt2 with
      last_seen_publish := 12, events := [idleSnapZ, idleSnapZ, idleSnapZ] }

theorem idle_step_one :
    handle_indoor_bike_data zeroPacket 5 0 idleTrioStart = idleTrioSt1 := by
  have hha : has_activity zeroPacket = false := rfl
  have hsl : is_sleeping idleTrioStart 5 idleTrioStart.last_activity = false := by
    unfold is_sleeping idleTrioStart
    norm_num
  unfold handle_indoor_bike_data
  rw [hha, hsl]
  simp only [Bool.not_false, Bool.and_false, Bool.false_eq_true, if_false]
  unfold publish_active
  rw [if_neg (by norm_num [idleTrioStart])]
  rfl

theorem idle_step_two :
    handle_indoor_bike_data zeroPacket 9 0 idleTrioSt1 = idleTrioSt2 := by
  have hha : has_activity zeroPacket = false := rfl
  have hsl : is_sleeping idleTrioSt1 9 idleTrioSt1.last_activity = false := by
    unfold is_sleeping idleTrioSt1
    norm_num
  unfold handle_indoor_bike_data
  rw [hha, hsl]
  simp only [Bool.not_false, Bool.and_false, Bool.false_eq_true, if_false]
  unfold publish_active
  rw [if_neg (by norm_num [idleTrioSt1])]
  rfl

theorem idle_step_three :
    handle_indoor_bike_data zeroPacket 12 0 idleTrioSt2 = idleTrioSt3 := by
  have hha : has_activity zeroPacket = false := rfl
  have hsl : is_sleeping idleTrioSt2 12 idleTrioSt2.last_activity = true := by
    unfold is_sleeping idleTrioSt2 idleTrioSt1
    norm_num
  unfold handle_indoor_bike_data
  rw [hha, hsl]
  simp only [Bool.not_false, Bool.and_true, if_true]
  unfold maybe_publish_last_seen
  rw [if_neg (by norm_num [idleTrioSt2, idleTrioSt1])]
  rfl

/-- C7: with `last_activity = 0`, `sleep_timeout = 10`,
`last_seen_interval = 1`, `update_throttle = 0`, three all-zero packets at
monotonic times 5, 9 and 12 leave `last_activity = 0`, `last_publish = 9`
and `last_seen_publish = 12`; and in general an all-zero packet arriving
while sleeping never advances `last_activity` or `last_publish`, and
advances `last_seen_publish` (publishing a bare last-seen event) only when
the last-seen interval has elapsed, being a complete no-op otherwise. -/
theorem idle_packets_respect_sleep :
    (idleTrioEnd.last_activity = 0 ∧ idleTrioEnd.last_publish = 9 ∧
      idleTrioEnd.last_seen_publish = 12) ∧
    ∀ (st : CoordState) (data : List (String × ℚ)) (now wall : ℚ),
      has_activity data = false →
      is_sleeping st now st.last_activity = true →
      (handle_indoor_bike_data data now wall st).last_activity = st.last_activity ∧
      (handle_indoor_bike_data data now wall st).last_publish = st.last_publish ∧
      (now - st.last_seen_publish < st.last_seen_interval →
        handle_indoor_bike_data data now wall st = st) ∧
      (¬ now - st.last_seen_publish < st.last_seen_interval →
        (handle_indoor_bike_data data now wall st).last_seen_publish = now) := by
  constructor
  · unfold idleTrioEnd
    rw [idle_step_one, idle_step_two, idle_step_three]
    exact ⟨rfl, rfl, rfl⟩
  · intro st data now wall h1 h2
    have hb : (!has_activity data && is_sleeping st now st.last_activity) = true := by
      rw [h1, h2]; rfl
    unfold handle_indoor_bike_data
    rw [hb, if_pos rfl]
    unfold maybe_publish_last_seen
    by_cases hi : now - st.last_seen_publish < st.last_seen_interval
    · rw [if_pos hi]
      exact ⟨rfl, rfl, fun _ => rfl, fun hcon => absurd hi hcon⟩
    · rw [if_neg hi]
      exact ⟨rfl, rfl, fun hcon => absurd hcon hi, fun _ => rfl⟩

/-- Witness for the universally quantified half of the C7 theorem: a zero
packet at monotonic time 20 in a sleeping state with an elapsed last-seen
interval. -/
theorem idle_packets_respect_sleep_witness :
    has_activity zeroPacket = false ∧
      is_sleeping idleTrioStart 20 idleTrioStart.last_activity = true ∧
      (handle_indoor_bike_data zeroPacket 20 0 idleTrioStart).last_activity =
        idleTrioStart.last_activity ∧
      (handle_indoor_bike_data zeroPacket 20 0 idleTrioStart).last_publish =
        idleTrioStart.last_publish := by
  have h1 : has_activity zeroPacket = false := rfl
  have h2 : is_sleeping idleTrioStart 20 idleTrioStart.last_activity = true := by
    norm_num [is_sleeping, idleTrioStart]
  have h := (idle_packets_respect_sleep).2 idleTrioStart zeroPacket 20 0 h1 h2
  exact ⟨h1, h2, h.1, h.2.1⟩

/-- The state of the C6 counterexample: update_throttle 5, sleep detection
off, empty published snapshot, all timestamps 0. -/
def throttledStart : CoordState :=
  { data := some emptySnap, sleep_timeout := 0, last_seen_interval := 60,
    update_throttle := 5, last_activity := 0, last_publish := 0,
    last_seen_publish := 0, events := [] }

/-- C6 counterexample: a packet carrying `power_w = 100` handled at
monotonic time 3 with `update_throttle = 5` and `last_publish = 0` (inside
the throttle window) leaves the whole coordinator state unchanged except
`last_activity`: in particular the decoded metrics are NOT merged into the
stored snapshot — the merged dict is discarded — no event is published and
no publish timestamp advances. -/
theorem throttle_discards_metrics :
    handle_indoor_bike_data [("power_w", 100)] 3 0 throttledStart =
      { throttledStart with last_activity := 3 } := by
  have hha : has_activity [("power_w", 100)] = true := rfl
  have hsl : is_sleeping throttledStart 3 throttledStart.last_activity = false := rfl
  unfold handle_indoor_bike_data
  rw [hha, hsl]
  simp only [Bool.not_true, Bool.false_and, Bool.false_eq_true, if_false, if_true]
  unfold publish_active
  rw [if_pos ⟨by norm_num [throttledStart], by norm_num [throttledStart]⟩]

/-- C6 amended: for every active packet handled inside the throttle window
(`update_throttle ≠ 0` and `now − last_publish < update_throttle`, not in
the sleep path), the coordinator discards the merged snapshot entirely: the
stored telemetry state, the event stream and both publish timestamps are
unchanged; only `last_activity_monotonic` advances (when the packet shows
activity). -/
theorem throttle_window_publishes_nothing (st : CoordState)
    (data : List (String × ℚ)) (now wall : ℚ)
    (hth : st.update_throttle ≠ 0)
    (hwin : now - st.last_publish < st.update_throttle)
    (hns : ¬(has_activity data = false ∧ is_sleeping st now st.last_activity = true)) :
    handle_indoor_bike_data data now wall st =
      if has_activity data then { st with last_activity := now } else st := by
  have hb : (!has_activity data && is_sleeping st now st.last_activity) = false := by
    cases hha : has_activity data with
    | false =>
      cases hsl : is_sleeping st now st.last_activity with
      | false => rfl
      | true => exact absurd ⟨hha, hsl⟩ hns
    | true => rfl
  unfold handle_indoor_bike_data
  rw [hb]
  simp only [Bool.false_eq_true, if_false]
  cases hha : has_activity data with
  | false =>
    simp only [Bool.false_eq_true, if_false]
    unfold publish_active
    rw [if_pos ⟨hth, hwin⟩]
  | true =>
    simp only [if_true]
    unfold publish_active
    rw [if_pos ⟨hth, by simpa using hwin⟩]

/-- Witness for the amended C6 at the concrete throttled input. -/
theorem throttle_window_publishes_nothing_witness :
    throttledStart.update_throttle ≠ 0 ∧
      (3 : ℚ) - throttledStart.last_publish < throttledStart.update_throttle ∧
      handle_indoor_bike_data [("power_w", 100)] 3 0 throttledStart =
        (if has_activity [("power_w", 100)] then
          { throttledStart with last_activity := 3 } else throttledStart) := by
  refine ⟨by norm_num [throttledStart], by norm_num [throttledStart], ?_⟩
  exact throttle_window_publishes_nothing throttledStart [("power_w", 100)] 3 0
    (by norm_num [throttledStart]) (by norm_num [throttledStart])
    (by norm_num [has_activity, List.lookup])

/-- Errors the coordinator facade surfaces to command callers. -/
inductive CoordErr
  | manuallyDisconnected
  | controlUnavailable
deriving DecidableEq

/-- What one run of the periodic liveness tick decides to do. -/
inductive TickAction
  | noop
  | reconnect
  | verify
deriving DecidableEq

/-- Modelled from the spec: the session state triple of coordinator §4.F
(`connected`, `manually_disconnected`, `has_control`). The manual-disconnect
feature — `async_disconnect`, `async_connect`, `is_manually_disconnected`
and the offline guard in the periodic tick and the command path — is
referenced by the repository's switch platform and coordinator tests but
its implementation is absent from the sources provided, so it is modelled
here from the spec: the user's disconnect sets `manually_disconnected`,
closes the transport and clears `connected`; while the flag is set the
periodic tick does not attempt reconnect, every mutating command fails with
`ManuallyDisconnected`, and the liveness probe is a no-op; a manual connect
clears the flag. -/
structure FacadeState where
  connected : Bool
  manually_disconnected : Bool
  has_control : Bool
deriving DecidableEq

/-- Modelled from the spec: `disconnect()` sets `manually_disconnected`,
closes the transport and clears `connected`. -/
def facade_disconnect (st : FacadeState) : FacadeState :=
  { st with manually_disconnected := true, connected := false }

/-- Modelled from the spec: a manual `connect()` clears
`manually_disconnected`, reconnects and re-initializes; control stays lazy
(`has_control` cleared), per the connect/init sequence of §4.F. -/
def facade_connect (st : FacadeState) : FacadeState :=
  { st with manually_disconnected := false, connected := true, has_control := false }

/-- Modelled from the spec: the decision of the periodic liveness tick
(`_async_update_data`). While `manually_disconnected` it is a no-op;
otherwise it attempts reconnect when disconnected and probes the live
connection when connected. -/
def tick_action (st : FacadeState) : TickAction :=
  if st.manually_disconnected then TickAction.noop
  else if !st.connected then TickAction.reconnect
  else TickAction.verify

/-- Modelled from the spec: `ensure_control()` — fails with
`ManuallyDisconnected` while the user is offline, is a no-op when control is
already held, and otherwise acquires control lazily (the successful network
path abstracted as success; its failure modes are out of this claim's
scope). -/
def ensure_control (st : FacadeState) : Except CoordErr FacadeState :=
  if st.manually_disconnected then Except.error CoordErr.manuallyDisconnected
  else if st.has_control then Except.ok st
  else Except.ok { st with has_control := true }

/-- Modelled from the spec: `async_set_erg_watts` runs `ensure_control`
first; the subsequent FTMS write is abstracted (its encoding is verified
separately on the client). -/
def async_set_erg_watts (w : ℤ) (st : FacadeState) : Except CoordErr FacadeState :=
  ensure_control st

/-- Modelled from the spec: `async_set_grade`, guard first. -/
def async_set_grade (g : ℚ) (st : FacadeState) : Except CoordErr FacadeState :=
  ensure_control st

/-- Modelled from the spec: `async_request_control` delegates to
`ensure_control`. -/
def async_request_control (st : FacadeState) : Except CoordErr FacadeState :=
  ensure_control st

/-- Modelled from the spec: `async_reset`, guard first. -/
def async_reset (st : FacadeState) : Except CoordErr FacadeState :=
  ensure_control st

/-- Modelled from the spec: `async_start_training` delegates to
`ensure_control`. -/
def async_start_training (st : FacadeState) : Except CoordErr FacadeState :=
  ensure_control st

/-- Modelled from the spec: `async_stop_training`, guard first. -/
def async_stop_training (st : FacadeState) : Except CoordErr FacadeState :=
  ensure_control st

/-- C1: while `manually_disconnected` is set, each of the six mutating
commands fails with `ManuallyDisconnected` and the periodic tick is a no-op
(no reconnect attempt); `disconnect()` sets the flag from any state, and
only a manual `connect()` clears it. -/
theorem manual_disconnect_gates_everything (st : FacadeState) (w : ℤ) (g : ℚ)
    (h : st.manually_disconnected = true) :
    async_set_erg_watts w st = Except.error CoordErr.manuallyDisconnected ∧
    async_set_grade g st = Except.error CoordErr.manuallyDisconnected ∧
    async_request_control st = Except.error CoordErr.manuallyDisconnected ∧
    async_reset st = Except.error CoordErr.manuallyDisconnected ∧
    async_start_training st = Except.error CoordErr.manuallyDisconnected ∧
    async_stop_training st = Except.error CoordErr.manuallyDisconnected ∧
    tick_action st = TickAction.noop ∧
    (∀ st2 : FacadeState, (facade_disconnect st2).manually_disconnected = true) ∧
    (facade_connect st).manually_disconnected = false := by
  refine ⟨?_, ?_, ?_, ?_, ?_, ?_, ?_, fun st2 => rfl, rfl⟩ <;>
    simp [async_set_erg_watts, async_set_grade, async_request_control, async_reset,
      async_start_training, async_stop_training, ensure_control, tick_action, h]

/-- A connected, in-control session just before the user disconnects. -/
def connectedSession : FacadeState :=
  { connected := true, manually_disconnected := false, has_control := true }

/-- Witness for C1 on the state a manual disconnect leaves behind. -/
theorem manual_disconnect_gates_everything_witness :
    (facade_disconnect connectedSession).manually_disconnected = true ∧
      async_request_control (facade_disconnect connectedSession) =
        Except.error CoordErr.manuallyDisconnected :=
  ⟨rfl, (manual_disconnect_gates_everything
    (facade_disconnect connectedSession) 0 0 rfl).2.2.1⟩

end WahooWftnp
